import Mathlib

/-!
Verification development for the cblaster local-database module
(`cblaster/database.py`).

The module builds a local SQLite3 genome database plus a DIAMOND search
index, and exposes a small set of context queries over the stored genes
and scaffolds.  The Python functions are embedded shallowly below:

* the pure string manipulation building SQL text and bound-value lists
  (`query_genes`, `query_sequences`, `query_intermediate_genes`,
  `query_nucleotides`) is translated directly from the source;
* the SQL templates live in `cblaster/sql.py`, which is not part of the
  sources at hand, so the templates and the store-level semantics of the
  executed statements are modelled from the specification (each such
  definition carries a doc comment saying so);
* the `makedb` pipeline (parameter validation, overwrite guard, store
  initialisation, batching, the parse/load loop, FASTA export, DIAMOND
  invocation) is embedded as a pure function from the relevant inputs
  (resolved files with a parse oracle, pre-existing-file flags, aligner
  availability) to a record of its observable effects.
-/

/-- A gene row of the store's `gene` table: surrogate id, display name,
owning scaffold accession and organism name (denormalised), start/end
coordinates on the scaffold, and the encoded protein sequence. -/
structure GeneRow where
  id : Int
  name : String
  scaffold : String
  organism : String
  startPos : Int
  endPos : Int
  sequence : String
  deriving DecidableEq

/-- A scaffold row: accession, owning organism name, and the (optional)
raw nucleotide sequence. -/
structure Scaffold where
  accession : String
  organism : String
  sequence : Option String
  deriving DecidableEq

/-- The relational store backing the cblaster SQLite3 database. -/
structure Store where
  genes : List GeneRow
  scaffolds : List Scaffold
  deriving DecidableEq

/-- Modelled from the spec: the store-level meaning of executing
`sql.GENE_QUERY` (module `cblaster/sql.py` absent from the sources) —
select the gene rows whose id is in the interpolated id list.  SQLite
permits an empty `IN ()` list, which matches no row. -/
def query_genes (ids : List Int) (db : Store) : List GeneRow :=
  db.genes.filter (fun g => ids.contains g.id)

/-- Modelled from the spec: the store-level meaning of executing
`sql.SEQUENCE_QUERY` — the name and protein sequence of every gene row
whose id is in the interpolated id list. -/
def query_sequences (ids : List Int) (db : Store) : List (String × String) :=
  (db.genes.filter (fun g => ids.contains g.id)).map (fun g => (g.name, g.sequence))

/-- Modelled from the spec: the store-level meaning of executing
`sql.INTERMEDIATE_GENES_QUERY` with bound values
`[*names, scaffold, organism, start, end]` — every gene on the given
scaffold/organism whose coordinates fall within `[start, end]` and whose
name is not in `names`.  SQLite permits an empty `NOT IN ()` list, which
excludes nothing. -/
def query_intermediate_genes (names : List String) (start stop : Int)
    (scaffold organism : String) (db : Store) : List GeneRow :=
  db.genes.filter (fun g =>
    g.scaffold == scaffold && g.organism == organism &&
    decide (start ≤ g.startPos) && decide (g.endPos ≤ stop) &&
    !(names.contains g.name))

/-- The genes of a scaffold/organism pair whose coordinates fall within
`[start, stop]` — the reference set for the intermediate-genes query. -/
def genesInRange (start stop : Int) (scaffold organism : String) (db : Store) :
    List GeneRow :=
  db.genes.filter (fun g =>
    g.scaffold == scaffold && g.organism == organism &&
    decide (start ≤ g.startPos) && decide (g.endPos ≤ stop))

/-- Modelled from the spec: SQLite's `substr(X, Y, Z)` for a 1-based start
position `1 ≤ Y` and a non-negative length `0 ≤ Z`, the only argument
range the nucleotide query's in-bounds contract exercises (SQLite's
blank-padding and count-from-the-right rules for other arguments are out
of the claims' scope). -/
def sqliteSubstr (s : String) (y z : Int) : String :=
  String.mk ((s.toList.drop (y.toNat - 1)).take z.toNat)

/-- First scaffold row matching the accession/organism pair (`fetchone`). -/
def findScaffold (db : Store) (accession organism : String) : Option Scaffold :=
  db.scaffolds.find? (fun sc => sc.accession == accession && sc.organism == organism)

/-- Modelled from the spec: the store-level meaning of `query_nucleotides`
executing `sql.SCAFFOLD_QUERY.format(start, end - start)` with bound
values `[scaffold, organism]` — `fetchone` yields `none` when no scaffold
row matches, and otherwise one row holding `substr(sequence, start,
end - start)` (`none` inside when the stored sequence is NULL). -/
def query_nucleotides (scaffold organism : String) (start stop : Int)
    (db : Store) : Option (Option String) :=
  (findScaffold db scaffold organism).map
    (fun sc => sc.sequence.map (fun seq => sqliteSubstr seq start (stop - start)))

theorem filter_contains_nil (l : List GeneRow) :
    l.filter (fun g => (([] : List Int)).contains g.id) = [] := by
  induction l with
  | nil => rfl
  | cons a t ih => simp [List.filter, ih]

/-- C2: with an empty id list, `query_genes` and `query_sequences` both
produce the empty result set on every store, and (being total functions
of the store) raise no error: the empty interpolated list yields an
`IN ()` condition, which SQLite accepts and which matches no row. -/
theorem C2_theorem (db : Store) :
    query_genes [] db = [] ∧ query_sequences [] db = [] := by
  constructor
  · exact filter_contains_nil db.genes
  · show (db.genes.filter _).map _ = []
    rw [filter_contains_nil db.genes]
    rfl

/-- C3: with an empty excluded-names list, `query_intermediate_genes`
returns exactly the genes of the scaffold/organism pair whose coordinates
fall within the window — the `NOT IN ()` clause excludes nothing, so the
result is the full in-range set, not vacuously empty, and no error is
raised (the function is total). -/
theorem C3_theorem (start stop : Int) (scaffold organism : String) (db : Store) :
    query_intermediate_genes [] start stop scaffold organism db =
      genesInRange start stop scaffold organism db := by
  unfold query_intermediate_genes genesInRange
  apply List.filter_congr
  intro g _
  simp

/-- A value bound as a positional SQL parameter. -/
inductive SqlValue where
  | int (n : Int)
  | str (s : String)
  deriving DecidableEq

/-- Python's `sep.join(parts)`. -/
def pyJoin (sep : String) : List String → String
  | [] => ""
  | [x] => x
  | x :: y :: rest => x ++ sep ++ pyJoin sep (y :: rest)

/-- Python's `template.format(*args)` for a template represented as the
list of its literal fragments between the format holes. -/
def pyFormat : List String → List String → String
  | [], _ => ""
  | [p], _ => p
  | p :: ps, [] => p ++ pyFormat ps []
  | p :: ps, a :: rest => p ++ a ++ pyFormat ps rest

/-- Modelled from the spec: `sql.GENE_QUERY` (module `cblaster/sql.py`
absent from the sources) — a fixed SELECT over the gene table whose one
format hole receives the comma-joined id list; the template itself holds
no positional placeholder. -/
def GENE_QUERY : List String :=
  ["SELECT id, name, start, end, strand, scaffold, organism FROM gene WHERE gene.id IN (", ")"]

/-- Modelled from the spec: `sql.SEQUENCE_QUERY` — same single-hole IN
list shape as `GENE_QUERY`, selecting names and protein sequences. -/
def SEQUENCE_QUERY : List String :=
  ["SELECT name, sequence FROM gene WHERE gene.id IN (", ")"]

/-- Modelled from the spec: `sql.INTERMEDIATE_GENES_QUERY` — one format
hole receiving the joined placeholder list, plus the four fixed
positional placeholders matching the bound values
`scaffold, organism, start, end` that `query_intermediate_genes`
appends after the names. -/
def INTERMEDIATE_GENES_QUERY : List String :=
  ["SELECT start, end, id, name, strand FROM gene WHERE gene.name NOT IN (",
   ") AND scaffold = ? AND organism = ? AND start >= ? AND end <= ?"]

/-- Modelled from the spec: `sql.SCAFFOLD_QUERY` — two format holes
receiving the substr start and length, plus the two fixed positional
placeholders matching the bound values `scaffold, organism`. -/
def SCAFFOLD_QUERY : List String :=
  ["SELECT substr(sequence, ", ", ", ") FROM scaffold WHERE accession = ? AND organism = ?"]

/-- The SQL text and bound-value list built by `query_genes`:
`inner = ", ".join(str(idx) for idx in ids)`,
`query = sql.GENE_QUERY.format(inner)`, executed with no bound values. -/
def query_genes_sql (ids : List Int) : String × List SqlValue :=
  (pyFormat GENE_QUERY [pyJoin ", " (ids.map toString)], [])

/-- The SQL text and bound-value list built by `query_sequences`: same
interpolation pattern as `query_genes`, no bound values. -/
def query_sequences_sql (ids : List Int) : String × List SqlValue :=
  (pyFormat SEQUENCE_QUERY [pyJoin ", " (ids.map toString)], [])

/-- The SQL text and bound-value list built by
`query_intermediate_genes`: `marks = ", ".join("?" for _ in names)`,
`query = sql.INTERMEDIATE_GENES_QUERY.format(marks)`, executed with
`values=[*names, scaffold, organism, start, end]`. -/
def query_intermediate_genes_sql (names : List String) (start stop : Int)
    (scaffold organism : String) : String × List SqlValue :=
  (pyFormat INTERMEDIATE_GENES_QUERY [pyJoin ", " (names.map (fun _ => "?"))],
   names.map SqlValue.str ++
     [SqlValue.str scaffold, SqlValue.str organism, SqlValue.int start, SqlValue.int stop])

/-- The SQL text and bound-value list built by `query_nucleotides`:
`query = sql.SCAFFOLD_QUERY.format(start, end - start)`, executed with
`values=[scaffold, organism]` — the coordinates are interpolated, only
the pair identifying the scaffold is bound. -/
def query_nucleotides_sql (scaffold organism : String) (start stop : Int) :
    String × List SqlValue :=
  (pyFormat SCAFFOLD_QUERY [toString start, toString (stop - start)],
   [SqlValue.str scaffold, SqlValue.str organism])

/-- Number of positional placeholder markers in a piece of SQL text. -/
def countQmarks (s : String) : Nat :=
  (s.data.filter (fun c => c == '?')).length

theorem countQmarks_append (a b : String) :
    countQmarks (a ++ b) = countQmarks a + countQmarks b := by
  unfold countQmarks
  rw [String.data_append, List.filter_append, List.length_append]

theorem countQmarks_marks {α : Type} (names : List α) :
    countQmarks (pyJoin ", " (names.map (fun _ => "?"))) = names.length := by
  induction names with
  | nil => rfl
  | cons x t ih =>
    cases t with
    | nil => rfl
    | cons y r =>
      show countQmarks ("?" ++ ", " ++ pyJoin ", " ((y :: r).map (fun _ => "?"))) = _
      rw [countQmarks_append, countQmarks_append, ih]
      have h1 : countQmarks "?" = 1 := rfl
      have h2 : countQmarks ", " = 0 := rfl
      rw [h1, h2]
      simp [Nat.add_comm]

theorem pyJoin_mem_piece (sep x : String) :
    ∀ parts : List String, x ∈ parts → x.toList <:+: (pyJoin sep parts).toList := by
  intro parts
  induction parts with
  | nil => intro h; exact absurd h (List.not_mem_nil x)
  | cons p t ih =>
    intro hmem
    cases t with
    | nil =>
      have hx : x = p := by simpa using hmem
      subst hx
      exact List.infix_rfl
    | cons q r =>
      rcases List.mem_cons.mp hmem with h | h
      · subst h
        show x.toList <:+: (x ++ sep ++ pyJoin sep (q :: r)).toList
        have h1 : (x ++ sep ++ pyJoin sep (q :: r)).toList
            = x.toList ++ (sep.toList ++ (pyJoin sep (q :: r)).toList) := by
          simp [String.toList]
        rw [h1]
        exact List.IsPrefix.isInfix (List.prefix_append _ _)
      · show x.toList <:+: (p ++ sep ++ pyJoin sep (q :: r)).toList
        have h2 : (p ++ sep ++ pyJoin sep (q :: r)).toList
            = (p.toList ++ sep.toList) ++ (pyJoin sep (q :: r)).toList := by
          simp [String.toList]
        rw [h2]
        exact List.IsInfix.trans (ih h) (List.IsSuffix.isInfix (List.suffix_append _ _))

theorem infix_format1 (pre post x j : String) (h : x.toList <:+: j.toList) :
    x.toList <:+: (pyFormat [pre, post] [j]).toList := by
  show x.toList <:+: (pre ++ j ++ post).toList
  have h1 : (pre ++ j ++ post).toList = pre.toList ++ j.toList ++ post.toList := by
    simp [String.toList]
  rw [h1]
  exact List.IsInfix.trans h (List.infix_append _ _ _)

theorem infix_format2_left (a b c x y : String) :
    x.toList <:+: (pyFormat [a, b, c] [x, y]).toList := by
  show x.toList <:+: (a ++ x ++ pyFormat [b, c] [y]).toList
  have h1 : (a ++ x ++ pyFormat [b, c] [y]).toList
      = a.toList ++ x.toList ++ (pyFormat [b, c] [y]).toList := by
    simp [String.toList]
  rw [h1]
  exact List.infix_append _ _ _

/-- C1 is false on the code: at `ids = [7, 8]`, the SQL text built by
`query_genes` carries zero positional placeholders (not two) and the id
values are executed with an empty bound-value list — the ids are
interpolated into the query string itself. -/
theorem C1_counterexample :
    countQmarks (query_genes_sql [7, 8]).1 ≠ 2 ∧ (query_genes_sql [7, 8]).2 = [] := by
  constructor
  · decide
  · rfl

/-- C1 (amended): only `query_intermediate_genes` follows the
placeholder pattern — its SQL text carries exactly `names.length + 4`
positional placeholders and every caller value is bound, in order.
`query_genes` and `query_sequences` execute with an empty bound-value
list and each id's decimal rendering occurs inside the SQL text itself;
`query_nucleotides` binds only the scaffold and organism, while the
start coordinate is rendered inside the SQL text. -/
theorem C1_amended_theorem :
    (∀ ids : List Int, (query_genes_sql ids).2 = [] ∧
       ∀ i ∈ ids, (toString i).toList <:+: (query_genes_sql ids).1.toList) ∧
    (∀ ids : List Int, (query_sequences_sql ids).2 = [] ∧
       ∀ i ∈ ids, (toString i).toList <:+: (query_sequences_sql ids).1.toList) ∧
    (∀ (names : List String) (start stop : Int) (scaffold organism : String),
       countQmarks (query_intermediate_genes_sql names start stop scaffold organism).1
         = names.length + 4 ∧
       (query_intermediate_genes_sql names start stop scaffold organism).2
         = names.map SqlValue.str ++
             [SqlValue.str scaffold, SqlValue.str organism,
              SqlValue.int start, SqlValue.int stop]) ∧
    (∀ (scaffold organism : String) (start stop : Int),
       (query_nucleotides_sql scaffold organism start stop).2
         = [SqlValue.str scaffold, SqlValue.str organism] ∧
       (toString start).toList <:+: (query_nucleotides_sql scaffold organism start stop).1.toList) := by
  refine ⟨fun ids => ⟨rfl, fun i hi => ?_⟩, fun ids => ⟨rfl, fun i hi => ?_⟩,
    fun names start stop scaffold organism => ⟨?_, rfl⟩,
    fun scaffold organism start stop => ⟨rfl, ?_⟩⟩
  · exact infix_format1 _ _ _ _
      (pyJoin_mem_piece _ _ _ (List.mem_map_of_mem toString hi))
  · exact infix_format1 _ _ _ _
      (pyJoin_mem_piece _ _ _ (List.mem_map_of_mem toString hi))
  · show countQmarks (pyFormat INTERMEDIATE_GENES_QUERY
      [pyJoin ", " (names.map (fun _ => "?"))]) = names.length + 4
    show countQmarks (INTERMEDIATE_GENES_QUERY.get! 0 ++
      pyJoin ", " (names.map (fun _ => "?")) ++ INTERMEDIATE_GENES_QUERY.get! 1) = _
    rw [countQmarks_append, countQmarks_append, countQmarks_marks]
    have h1 : countQmarks (INTERMEDIATE_GENES_QUERY.get! 0) = 0 := rfl
    have h2 : countQmarks (INTERMEDIATE_GENES_QUERY.get! 1) = 4 := rfl
    rw [h1, h2]
    simp
  · exact infix_format2_left _ _ _ _ _

/-- C1 witness: the amended theorem applied at concrete inputs — the id
7 occurs verbatim inside the gene-query SQL text, and the two-name
intermediate query carries exactly six placeholders. -/
theorem C1_witness :
    (toString (7 : Int)).toList <:+: (query_genes_sql [7, 8]).1.toList ∧
    countQmarks (query_intermediate_genes_sql ["a", "b"] 1 9 "s" "o").1 = 2 + 4 := by
  constructor
  · exact (C1_amended_theorem.1 [7, 8]).2 7 (by simp)
  · exact (C1_amended_theorem.2.2.1 ["a", "b"] 1 9 "s" "o").1

/-- C7: when the scaffold/organism pair is present with a known sequence
and the 1-based coordinates are in bounds (`1 ≤ start ≤ end`,
`end ≤ length + 1`, matching SQLite's 1-indexed `substr`), the
nucleotide query returns one row holding a string of length exactly
`end - start`; when the pair is absent from the store, `fetchone`
returns no row — no error in either case. -/
theorem C7_theorem (db : Store) (scaffold organism : String) (start stop : Int) :
    (∀ sc seq, findScaffold db scaffold organism = some sc → sc.sequence = some seq →
      1 ≤ start → start ≤ stop → stop ≤ (seq.length : Int) + 1 →
      query_nucleotides scaffold organism start stop db
        = some (some (sqliteSubstr seq start (stop - start))) ∧
      (sqliteSubstr seq start (stop - start)).length = (stop - start).toNat) ∧
    (findScaffold db scaffold organism = none →
      query_nucleotides scaffold organism start stop db = none) := by
  constructor
  · intro sc seq hfind hseq h1 h2 h3
    constructor
    · unfold query_nucleotides
      rw [hfind]
      simp [hseq]
    · show ((seq.toList.drop (start.toNat - 1)).take (stop - start).toNat).length
        = (stop - start).toNat
      rw [List.length_take, List.length_drop]
      have hlen : seq.toList.length = seq.length := rfl
      rw [hlen]
      omega
  · intro hfind
    unfold query_nucleotides
    rw [hfind]
    rfl

/-- A scaffold row with a known sequence, for concrete instantiation. -/
def demoScaffold : Scaffold := ⟨"s1", "o1", some "ACGTACGT"⟩

/-- A store holding just `demoScaffold`. -/
def demoStore : Store := ⟨[], [demoScaffold]⟩

/-- C7 witness: on the concrete store, slicing scaffold `s1` of `o1`
from 2 to 5 yields one row whose string has length `3 = 5 - 2`. -/
theorem C7_witness :
    query_nucleotides "s1" "o1" 2 5 demoStore
      = some (some (sqliteSubstr "ACGTACGT" 2 (5 - 2))) ∧
    (sqliteSubstr "ACGTACGT" 2 (5 - 2)).length = ((5 : Int) - 2).toNat :=
  (C7_theorem demoStore "s1" "o1" 2 5).1 demoScaffold "ACGTACGT"
    (by rfl) (by rfl) (by decide) (by decide) (by decide)

/-- A Python value passed for the `batch`/`cpus` parameters. -/
inductive PyVal where
  | none
  | int (n : Int)
  | str (s : String)
  deriving DecidableEq

/-- `x is None or isinstance(x, int)`, the validation `makedb` applies
to its `batch` and `cpus` parameters. -/
def isIntOrNone : PyVal → Bool
  | PyVal.none => true
  | PyVal.int _ => true
  | PyVal.str _ => false

/-- The Python exception kinds the pipeline can raise. -/
inductive PyErr where
  | typeError (msg : String)
  | runtimeError (msg : String)
  | fileExistsError (msg : String)
  | valueError (msg : String)
  | missingProgram (msg : String)
  deriving DecidableEq

/-- An input genome file with its parse oracle: `parsed = none` means the
worker's `gp.parse_file` raises on this file (the parser itself is an
external collaborator of the module). -/
structure GFile where
  name : String
  parsed : Option (List GeneRow)
  deriving DecidableEq

/-- Modelled from the spec: the uniqueness constraint of the schema
(`cblaster/sql.py` absent from the sources) — a batch violates it when a
tuple's gene id collides with a row already committed to the store or
with another tuple of the same batch; this is the condition under which
`executemany` raises `sqlite3.IntegrityError`. -/
def batchViolates (tuples store : List GeneRow) : Bool :=
  tuples.any (fun t => store.any (fun s => s.id == t.id)) ||
    !(decide (tuples.map (fun t => t.id)).Nodup)

/-- `seqrecords_to_sqlite`: `executemany(sql.INSERT, tuples)` inside a
connection context manager, with `sqlite3.IntegrityError` caught and
logged.  A violating batch is rolled back whole by the context manager
(no partial insertion), a clean batch is committed whole; the caught
exception never escapes, so the function is total. -/
def seqrecords_to_sqlite (tuples store : List GeneRow) : List GeneRow :=
  if batchViolates tuples store then store else store ++ tuples

/-- Consuming `pool.imap(func, group)` in the batch loop: the group's
gene tuples concatenated in file order, or `none` as soon as one file's
parse step raises. -/
def parseGroup : List GFile → Option (List GeneRow)
  | [] => some []
  | f :: fs =>
    match f.parsed with
    | Option.none => Option.none
    | some ts => (parseGroup fs).map (fun rest => ts ++ rest)

/-- The `makedb` batch loop (source lines 196-208): batches are parsed
and loaded strictly in order; a parse failure raises out of the loop
into the surrounding broad `except` (the failing batch is not saved and
no later batch is launched), and is only logged.  Returns the final
store contents, the number of batches handed to the bulk loader, and
whether a parse failure occurred. -/
def runBatches : List (List GFile) → List GeneRow → List GeneRow × Nat × Bool
  | [], store => (store, 0, false)
  | g :: gs, store =>
    match parseGroup g with
    | Option.none => (store, 0, true)
    | some tuples =>
      let r := runBatches gs (seqrecords_to_sqlite tuples store)
      (r.1, r.2.1 + 1, r.2.2)

/-- Python's `range(start, stop, step)` for a positive step, written with
structural fuel so that applications reduce in the kernel; only
meaningful when `stop - start ≤ fuel`. -/
def pyRangeAux (stop step : Nat) : Nat → Nat → List Nat
  | 0, _ => []
  | fuel + 1, start =>
    if start < stop then start :: pyRangeAux stop step fuel (start + step) else []

/-- Python's `range(start, stop, step)` for a positive step. -/
def pyRange (start stop step : Nat) : List Nat :=
  pyRangeAux stop step (stop - start) start

/-- The batch partition of `makedb` (source line 188):
`[paths[i : i + batch] for i in range(0, total_paths, batch)]`. -/
def path_groups {α : Type} (paths : List α) (batch : Nat) : List (List α) :=
  (pyRange 0 paths.length batch).map (fun i => (paths.drop i).take batch)

/-- The observable effects of one `makedb` run. -/
structure MakedbResult where
  err : Option PyErr
  storeInitialized : Bool
  store : List GeneRow
  batchesAttempted : Nat
  parseFailed : Bool
  fastaWritten : Bool
  diamondInvoked : Bool
  deriving DecidableEq

/-- Modelled from the spec: `helpers.get_program_path` (module
`cblaster/helpers.py` absent from the sources) — resolves the aligner
executable among the known names and raises when none is found on the
search path. -/
def get_program_path (aligner : Option String) : Except PyErr String :=
  match aligner with
  | some p => Except.ok p
  | Option.none =>
    Except.error (PyErr.missingProgram "could not find diamond or diamond-aligner on the system path")

/-- `diamond_makedb`: resolves the aligner, then calls `subprocess.run`
without `check=True` — the child process exit status is ignored, so a
missing binary is the only condition that surfaces as an error. -/
def diamond_makedb (aligner : Option String) (exitStatus : Int) : Except PyErr Unit :=
  match get_program_path aligner with
  | Except.error e => Except.error e
  | Except.ok _ => Except.ok ()

/-- The error, if any, escaping the index-build step. -/
def errOf : Except PyErr Unit → Option PyErr
  | Except.ok _ => Option.none
  | Except.error e => some e

/-- The tail of the `makedb` pipeline once the batch partition exists:
the parse/load loop inside the broad exception handler that only logs,
then unconditionally the FASTA export and the DIAMOND invocation. -/
def finishMakedb (groups : List (List GFile)) (aligner : Option String)
    (alignerExit : Int) : MakedbResult :=
  let r := runBatches groups []
  ⟨errOf (diamond_makedb aligner alignerExit), true, r.1, r.2.1, r.2.2, true,
   (get_program_path aligner).toBool⟩

/-- `makedb` (source lines 138-217) as a pure function of: the resolved
input files with their parse oracles (`gp.find_files` is an external
collaborator, so its output is taken as input), the overwrite flag, the
`cpus`/`batch` parameters as Python values, the pre-existing flags of
the three output artifacts, and the aligner resolution/exit oracle.  The
`fastaExists` flag is part of the claims' world state; the source never
reads it, which the definition reflects by ignoring it. -/
def makedb (files : List GFile) (force : Bool) (cpus batch : PyVal)
    (sqliteExists fastaExists dmndExists : Bool)
    (aligner : Option String) (alignerExit : Int) : MakedbResult :=
  if !(isIntOrNone batch) then
    ⟨some (PyErr.typeError "batch should be None or int"), false, [], 0, false, false, false⟩
  else if !(isIntOrNone cpus) then
    ⟨some (PyErr.typeError "cpus should be None or int"), false, [], 0, false, false, false⟩
  else if (sqliteExists || dmndExists) && !force then
    ⟨some (PyErr.runtimeError "Existing files found but force=False"), false, [], 0, false, false, false⟩
  else if files.length = 0 then
    ⟨some (PyErr.runtimeError "No valid files provided expected genbank, embl or gff with accompanying fasta file."),
     true, [], 0, false, false, false⟩
  else
    match batch with
    | PyVal.int b =>
      if b = 0 then
        ⟨some (PyErr.valueError "range() arg 3 must not be zero"), true, [], 0, false, false, false⟩
      else if b < 0 then
        finishMakedb [] aligner alignerExit
      else
        finishMakedb (path_groups files b.toNat) aligner alignerExit
    | _ =>
      finishMakedb (path_groups files files.length) aligner alignerExit

/-- A committed gene row for concrete runs. -/
def gRow1 : GeneRow := ⟨1, "g1", "s1", "o1", 0, 30, "MA"⟩

/-- A second gene row, distinct id. -/
def gRow2 : GeneRow := ⟨2, "g2", "s2", "o2", 0, 45, "MB"⟩

/-- A third gene row, distinct id. -/
def gRow3 : GeneRow := ⟨3, "g3", "s3", "o3", 5, 25, "MC"⟩

/-- A file whose parse step succeeds with one gene. -/
def fileOk : GFile := ⟨"orgA.gbk", some [gRow1]⟩

/-- A file whose parse step raises. -/
def fileBad : GFile := ⟨"orgB.gbk", Option.none⟩

/-- C4: the code does NOT hard-stop the run on a parse failure.  At the
failing input `paths = [orgA.gbk, orgB.gbk]` with `batch = 1`, where the
second file's parse raises: batch 1 stays committed, no further batch is
launched and nothing is retried — but the broad `except` only logs
"File parsing failed, exiting..." and falls through, so the FASTA export
is still written and the DIAMOND build is still invoked, contradicting
the claim's (and the code's own log message's) hard stop. -/
theorem C4_evaluation :
    makedb [fileOk, fileBad] false PyVal.none (PyVal.int 1) false false false
        (some "diamond") 0
      = ⟨Option.none, true, [gRow1], 1, true, true, true⟩ := by
  rfl

/-- C5: the bulk loader suppresses a duplicate-key batch wholly — the
store is returned unchanged, with no partial insertion and no exception
(the function is total) — and the batch loop continues: with batch 2 of
3 violating a uniqueness constraint, all three batches are handed to the
loader, the final store is batch 3 loaded on top of batch 1's rows, and
every row committed by batch 1 is still queryable at the end. -/
theorem C5_theorem (b1 b2 b3 : List GeneRow)
    (hv : batchViolates b2 (seqrecords_to_sqlite b1 []) = true) :
    seqrecords_to_sqlite b2 (seqrecords_to_sqlite b1 []) = seqrecords_to_sqlite b1 [] ∧
    runBatches [[⟨"f1", some b1⟩], [⟨"f2", some b2⟩], [⟨"f3", some b3⟩]] []
      = (seqrecords_to_sqlite b3 (seqrecords_to_sqlite b1 []), 3, false) ∧
    (∀ r ∈ seqrecords_to_sqlite b1 [], r ∈ seqrecords_to_sqlite b3 (seqrecords_to_sqlite b1 [])) := by
  have e1 : parseGroup [(⟨"f1", some b1⟩ : GFile)] = some b1 := by
    simp [parseGroup]
  have e2 : parseGroup [(⟨"f2", some b2⟩ : GFile)] = some b2 := by
    simp [parseGroup]
  have e3 : parseGroup [(⟨"f3", some b3⟩ : GFile)] = some b3 := by
    simp [parseGroup]
  have h2 : seqrecords_to_sqlite b2 (seqrecords_to_sqlite b1 []) = seqrecords_to_sqlite b1 [] := by
    unfold seqrecords_to_sqlite
    rw [if_pos]
    exact hv
  refine ⟨h2, ?_, ?_⟩
  · simp only [runBatches, e1, e2, e3, h2]
  · intro r hr
    generalize seqrecords_to_sqlite b1 [] = s at hr ⊢
    unfold seqrecords_to_sqlite
    split
    · exact hr
    · exact List.mem_append_left _ hr

/-- C5 witness: batch 2 repeats batch 1's gene id; all three batches are
attempted, batch 1's row survives, and the run ends without error. -/
theorem C5_witness :
    runBatches [[⟨"f1", some [gRow1]⟩], [⟨"f2", some [gRow1]⟩], [⟨"f3", some [gRow3]⟩]] []
      = (seqrecords_to_sqlite [gRow3] (seqrecords_to_sqlite [gRow1] []), 3, false) :=
  (C5_theorem [gRow1] [gRow1] [gRow3] (by decide)).2.1

/-- C6 is false on the code: the overwrite guard checks only the
`.sqlite3` and `.dmnd` paths.  With only the `.fasta` artifact present
and `force = false`, no `AlreadyExists` error is raised; the pipeline
runs and the export step rewrites the pre-existing `.fasta` file. -/
theorem C6_counterexample :
    (makedb [fileOk] false PyVal.none PyVal.none false true false (some "diamond") 0).err
        = Option.none ∧
    (makedb [fileOk] false PyVal.none PyVal.none false true false (some "diamond") 0).storeInitialized
        = true ∧
    (makedb [fileOk] false PyVal.none PyVal.none false true false (some "diamond") 0).fastaWritten
        = true :=
  ⟨rfl, rfl, rfl⟩

/-- C6 (amended): if the `.sqlite3` store or the `.dmnd` index already
exists and `force` is false, `makedb` raises `RuntimeError` before the
pipeline runs — no store initialisation, load, export or aligner
invocation happens, so every pre-existing file is left unchanged.  The
`.fasta` artifact is not part of the guard, and the parameter type
checks still run first. -/
theorem C6_amended_theorem (files : List GFile) (cpus batch : PyVal)
    (sqliteExists fastaExists dmndExists : Bool)
    (aligner : Option String) (alignerExit : Int)
    (hb : isIntOrNone batch = true) (hc : isIntOrNone cpus = true)
    (hex : (sqliteExists || dmndExists) = true) :
    makedb files false cpus batch sqliteExists fastaExists dmndExists aligner alignerExit
      = ⟨some (PyErr.runtimeError "Existing files found but force=False"),
         false, [], 0, false, false, false⟩ := by
  unfold makedb
  rw [hb, hc, hex]
  rfl

/-- C6 witness: the amended theorem at a concrete input — the store file
exists, `force` is false, and `makedb` stops with the error and no side
effects. -/
theorem C6_witness :
    makedb [fileOk] false PyVal.none PyVal.none true false false (some "diamond") 0
      = ⟨some (PyErr.runtimeError "Existing files found but force=False"),
         false, [], 0, false, false, false⟩ :=
  C6_amended_theorem [fileOk] PyVal.none PyVal.none true false false (some "diamond") 0
    rfl rfl rfl

/-- C9 is false on the code: with the aligner binary present and the
child process exiting with status 1, `diamond_makedb` reports success —
`subprocess.run` is called without `check=True`, so the non-zero exit
status is silently ignored rather than surfaced as a failure. -/
theorem C9_counterexample :
    diamond_makedb (some "/usr/bin/diamond") 1 = Except.ok () :=
  rfl

/-- C9 (amended): a missing aligner binary is the only failure the
index-build step surfaces; a non-zero exit status of the child process
is ignored.  The export happens before the aligner is resolved, so even
when the missing-binary error escapes `makedb`, the FASTA file has
already been written and remains on disk. -/
theorem C9_amended_theorem (p : String) (c : Int) (files : List GFile) (cpus : PyVal)
    (hc : isIntOrNone cpus = true) (hne : files ≠ []) :
    diamond_makedb (some p) c = Except.ok () ∧
    diamond_makedb Option.none c
      = Except.error (PyErr.missingProgram "could not find diamond or diamond-aligner on the system path") ∧
    (makedb files false cpus PyVal.none false false false Option.none c).fastaWritten = true ∧
    (makedb files false cpus PyVal.none false false false Option.none c).err
      = some (PyErr.missingProgram "could not find diamond or diamond-aligner on the system path") := by
  have hlen : ¬ files.length = 0 := by
    simpa [List.length_eq_zero] using hne
  refine ⟨rfl, rfl, ?_, ?_⟩
  · unfold makedb
    rw [hc]
    simp [hlen, isIntOrNone, finishMakedb]
  · unfold makedb
    rw [hc]
    simp [hlen, isIntOrNone, finishMakedb, errOf, diamond_makedb, get_program_path]

/-- C9 witness: the amended theorem at a concrete input — exit status 1
is accepted, and a run without the aligner still has the FASTA written. -/
theorem C9_witness :
    diamond_makedb (some "/usr/bin/diamond") 1 = Except.ok () ∧
    (makedb [fileOk] false PyVal.none PyVal.none false false false Option.none 1).fastaWritten
      = true := by
  have h := C9_amended_theorem "/usr/bin/diamond" 1 [fileOk] PyVal.none rfl (by simp)
  exact ⟨h.1, h.2.2.1⟩

/-- C10: the integer 0 passes `makedb`'s isinstance validation of
`batch`; with a non-empty resolved file list the run then raises the
unhandled `ValueError` of `range(0, total, 0)` AFTER the sqlite store
file has been created (or overwritten, under `force`) — side effects
already performed — whereas a non-int `batch` fails the validation with
`TypeError` before any side effect. -/
theorem C10_theorem (files : List GFile) (force : Bool) (cpus : PyVal)
    (sqliteExists fastaExists dmndExists : Bool)
    (aligner : Option String) (alignerExit : Int)
    (hc : isIntOrNone cpus = true) (hne : files ≠ [])
    (hguard : (sqliteExists || dmndExists) = true → force = true) :
    makedb files force cpus (PyVal.int 0) sqliteExists fastaExists dmndExists aligner alignerExit
      = ⟨some (PyErr.valueError "range() arg 3 must not be zero"), true, [], 0, false, false, false⟩ ∧
    makedb files force cpus (PyVal.str "0") sqliteExists fastaExists dmndExists aligner alignerExit
      = ⟨some (PyErr.typeError "batch should be None or int"), false, [], 0, false, false, false⟩ := by
  have hlen : ¬ files.length = 0 := by
    simpa [List.length_eq_zero] using hne
  have hg : ((sqliteExists || dmndExists) && !force) = false := by
    cases h : sqliteExists || dmndExists
    · simp
    · simp [hguard h]
  constructor
  · unfold makedb
    rw [hc, hg]
    simp [hlen, isIntOrNone]
  · rfl

/-- C10 witness: the theorem at a concrete input — `batch = 0` at one
good file raises the range ValueError with the store already created,
`batch = "0"` raises TypeError with nothing created. -/
theorem C10_witness :
    makedb [fileOk] false PyVal.none (PyVal.int 0) false false false (some "diamond") 0
      = ⟨some (PyErr.valueError "range() arg 3 must not be zero"), true, [], 0, false, false, false⟩ ∧
    makedb [fileOk] false PyVal.none (PyVal.str "0") false false false (some "diamond") 0
      = ⟨some (PyErr.typeError "batch should be None or int"), false, [], 0, false, false, false⟩ :=
  C10_theorem [fileOk] false PyVal.none false false false (some "diamond") 0
    rfl (by simp) (fun h => by simp at h)

theorem pyRangeAux_congr (stop step : Nat) (hstep : 0 < step) :
    ∀ fuel fuel' start, stop - start ≤ fuel → stop - start ≤ fuel' →
      pyRangeAux stop step fuel start = pyRangeAux stop step fuel' start := by
  intro fuel
  induction fuel with
  | zero =>
    intro fuel' start h h'
    have hns : ¬ start < stop := by omega
    cases fuel' with
    | zero => rfl
    | succ f => simp [pyRangeAux, hns]
  | succ f ih =>
    intro fuel' start h h'
    cases fuel' with
    | zero =>
      have hns : ¬ start < stop := by omega
      simp [pyRangeAux, hns]
    | succ f' =>
      by_cases hs : start < stop
      · simp only [pyRangeAux, if_pos hs]
        rw [ih f' (start + step) (by omega) (by omega)]
      · simp [pyRangeAux, hs]

theorem pyRange_step (start stop step : Nat) (hstep : 0 < step) (h : start < stop) :
    pyRange start stop step = start :: pyRange (start + step) stop step := by
  unfold pyRange
  obtain ⟨k, hk⟩ : ∃ k, stop - start = k + 1 := ⟨stop - start - 1, by omega⟩
  rw [hk]
  simp only [pyRangeAux, if_pos h]
  rw [pyRangeAux_congr stop step hstep k (stop - (start + step)) (start + step)
    (by omega) (le_refl _)]

theorem pyRange_stop (start stop step : Nat) (h : ¬ start < stop) :
    pyRange start stop step = [] := by
  unfold pyRange
  have h0 : stop - start = 0 := by omega
  rw [h0]
  rfl

theorem pyRange_mem (stop step : Nat) :
    ∀ fuel start j, j ∈ pyRangeAux stop step fuel start → start ≤ j ∧ j < stop := by
  intro fuel
  induction fuel with
  | zero =>
    intro start j h
    exact absurd h (List.not_mem_nil j)
  | succ f ih =>
    intro start j h
    by_cases hs : start < stop
    · rw [pyRangeAux, if_pos hs] at h
      rcases List.mem_cons.mp h with h | h
      · omega
      · have := ih (start + step) j h
        omega
    · rw [pyRangeAux, if_neg hs] at h
      exact absurd h (List.not_mem_nil j)

theorem path_groups_join_aux {α : Type} (l : List α) (b : Nat) (hb : 0 < b) :
    ∀ fuel i, l.length - i ≤ fuel →
      ((pyRange i l.length b).map (fun j => (l.drop j).take b)).flatten = l.drop i := by
  intro fuel
  induction fuel with
  | zero =>
    intro i h
    have hns : ¬ i < l.length := by omega
    rw [pyRange_stop _ _ _ hns]
    rw [List.drop_eq_nil_of_le (by omega)]
    rfl
  | succ f ih =>
    intro i h
    by_cases hs : i < l.length
    · rw [pyRange_step i l.length b hb hs]
      rw [List.map_cons, List.flatten_cons]
      rw [ih (i + b) (by omega)]
      exact List.drop_take_append_drop l i b
    · rw [pyRange_stop _ _ _ hs]
      rw [List.drop_eq_nil_of_le (by omega)]
      rfl

theorem path_groups_dropLast_aux {α : Type} (l : List α) (b : Nat) (hb : 0 < b) :
    ∀ fuel i, l.length - i ≤ fuel →
      ∀ g ∈ ((pyRange i l.length b).map (fun j => (l.drop j).take b)).dropLast,
        g.length = b := by
  intro fuel
  induction fuel with
  | zero =>
    intro i h g hg
    rw [pyRange_stop _ _ _ (by omega : ¬ i < l.length)] at hg
    exact absurd hg (by simp)
  | succ f ih =>
    intro i h g hg
    by_cases hs : i < l.length
    · rw [pyRange_step i l.length b hb hs, List.map_cons] at hg
      by_cases htail : i + b < l.length
      · have hne : (pyRange (i + b) l.length b).map (fun j => (l.drop j).take b) ≠ [] := by
          rw [pyRange_step (i + b) l.length b hb htail]
          simp
        rw [List.dropLast_cons_of_ne_nil hne] at hg
        rcases List.mem_cons.mp hg with hgh | hgt
        · subst hgh
          rw [List.length_take, List.length_drop]
          omega
        · exact ih (i + b) (by omega) g hgt
      · rw [pyRange_stop (i + b) _ _ htail] at hg
        simp at hg
    · rw [pyRange_stop _ _ _ hs] at hg
      exact absurd hg (by simp)

theorem path_groups_bounds {α : Type} (l : List α) (b : Nat) (hb : 0 < b) :
    ∀ g ∈ path_groups l b, g ≠ [] ∧ g.length ≤ b := by
  intro g hg
  unfold path_groups pyRange at hg
  rcases List.mem_map.mp hg with ⟨j, hj, rfl⟩
  have hjlt := (pyRange_mem l.length b (l.length - 0) 0 j hj).2
  constructor
  · have hlen : ((l.drop j).take b).length = min b (l.length - j) := by
      rw [List.length_take, List.length_drop]
    intro hnil
    rw [hnil] at hlen
    simp at hlen
    omega
  · rw [List.length_take]
    exact min_le_left _ _

theorem path_groups_default {α : Type} (l : List α) (hne : l ≠ []) :
    path_groups l l.length = [l] := by
  unfold path_groups
  have h0 : 0 < l.length := List.length_pos.mpr hne
  rw [pyRange_step 0 l.length l.length h0 h0]
  rw [pyRange_stop (0 + l.length) l.length l.length (by omega)]
  simp

/-- C8: for a non-empty resolved path list and positive `batch`, the
partition `[paths[i : i + batch] for i in range(0, total_paths, batch)]`
consists of consecutive non-empty groups of at most `batch` paths, every
group except possibly the last holding exactly `batch` paths, and
concatenating the groups in order restores exactly the path list; when
`batch` is absent the code sets `batch = total_paths`, which yields the
single group holding all paths. -/
theorem C8_theorem {α : Type} (paths : List α) (batch : Nat)
    (hne : paths ≠ []) (hb : 0 < batch) :
    (path_groups paths batch).flatten = paths ∧
    (∀ g ∈ (path_groups paths batch).dropLast, g.length = batch) ∧
    (∀ g ∈ path_groups paths batch, g ≠ [] ∧ g.length ≤ batch) ∧
    path_groups paths paths.length = [paths] := by
  refine ⟨?_, ?_, path_groups_bounds paths batch hb, path_groups_default paths hne⟩
  · have := path_groups_join_aux paths batch hb paths.length 0 (by omega)
    simpa [path_groups] using this
  · intro g hg
    exact path_groups_dropLast_aux paths batch hb paths.length 0 (by omega) g hg

/-- C8 witness: five paths in batches of two — groups `[1,2] [3,4] [5]`,
whose concatenation is the original list, all but the last of size two,
and with `batch` absent a single group of all five. -/
theorem C8_witness :
    (path_groups [1, 2, 3, 4, 5] 2).flatten = [1, 2, 3, 4, 5] ∧
    path_groups [1, 2, 3, 4, 5] ([1, 2, 3, 4, 5] : List Nat).length = [[1, 2, 3, 4, 5]] := by
  refine ⟨(C8_theorem [1, 2, 3, 4, 5] 2 (by simp) (by omega)).1,
    (C8_theorem [1, 2, 3, 4, 5] 2 (by simp) (by omega)).2.2.2⟩
